import Mathlib

/-!
Verification of the MerchantPlusGh transaction ledger and provider-balance
tracker (Django app `transactions`, files `transactions/models.py`,
`transactions/views.py`, `transactions/serializers.py`, plus the
`CompanySettings` record from `core/models.py`).

Monetary values (Django `DecimalField`) are modelled as `Rat`: Python
`decimal.Decimal` arithmetic on the magnitudes involved is exact rational
arithmetic with power-of-ten denominators.  Database tables are modelled as
Lean lists, a row's primary key as a `Nat`, and each HTTP view function as a
pure function from (database state, request data) to (new database state,
response), where the response is `Except ApiError α` and the error mirrors
the HTTP status the view returns.
-/

namespace MerchantPlus

/-- Transaction.Type choices (transactions/models.py). -/
inductive TxType
  | deposit
  | withdrawal
  | transfer
  | fee
  | commission
  | reversal
deriving DecidableEq, Repr

/-- Transaction.Channel choices (transactions/models.py). -/
inductive Channel
  | bank
  | mobile_money
  | cash
deriving DecidableEq, Repr

/-- Transaction.Status choices (transactions/models.py). -/
inductive Status
  | pending
  | approved
  | completed
  | rejected
  | reversed
  | failed
deriving DecidableEq, Repr

/-- Membership roles as compared in transactions/views.py
("owner", "admin", "manager", "teller"). -/
inductive Role
  | owner
  | admin
  | manager
  | teller
deriving DecidableEq, Repr

/-- ProviderBalance.Provider choices (transactions/models.py). -/
inductive Provider
  | mtn
  | vodafone
  | airtel
  | tigo
  | ecobank
  | fidelity
  | cal_bank
deriving DecidableEq, Repr

/-- CompanySettings (core/models.py): the per-company fee and approval
configuration consulted by the transaction views.  All four fields are
`DecimalField`s with no value validators, so any decimal (negative included)
is storable. -/
structure CompanySettings where
  require_approval_above : Rat
  deposit_fee_percentage : Rat
  withdrawal_fee_percentage : Rat
  transfer_fee_flat : Rat
deriving DecidableEq, Repr

/-- A company (core/models.py Company), reduced to the parts the transaction
views read: its identity, its optional one-to-one `settings` record, and the
`subscription_plan.has_mobile_money` capability flag consulted by
`create_momo_transaction`. -/
structure Company where
  cid : Nat
  has_mobile_money : Bool
  settings : Option CompanySettings
deriving DecidableEq, Repr

/-- The request's resolved membership (middleware): the authenticated user,
their role, company and optional branch.  `user` is `request.user`'s id. -/
structure Membership where
  user : Nat
  role : Role
  company : Company
  branch : Option Nat
deriving DecidableEq, Repr

/-- A Transaction row (transactions/models.py). -/
structure Transaction where
  id : Nat
  reference : String
  company : Nat
  branch : Option Nat
  customer : Option Nat
  initiated_by : Option Nat
  transaction_type : TxType
  channel : Channel
  status : Status
  amount : Rat
  fee : Rat
  net_amount : Rat
  description : String
  requires_approval : Bool
  approved_by : Option Nat
  approved_at : Option Nat
  rejection_reason : String
  reversed_transaction : Option Nat
  created_at : Nat
deriving DecidableEq, Repr

/-- A BankDeposit detail row (transactions/models.py), keyed by its
transaction's id. -/
structure BankDeposit where
  transaction : Nat
  bank_name : String
  account_number : String
  account_name : String
  depositor_name : String
  slip_number : String
deriving DecidableEq, Repr

/-- A MobileMoneyTransaction detail row (transactions/models.py). -/
structure MomoDetail where
  transaction : Nat
  network : String
  service_type : String
  sender_number : String
  receiver_number : String
  momo_reference : String
deriving DecidableEq, Repr

/-- A CashTransaction detail row (transactions/models.py).  The serializer
fields are plain `IntegerField`s, so counts are modelled as `Int`. -/
structure CashDetail where
  transaction : Nat
  d_200 : Int
  d_100 : Int
  d_50 : Int
  d_20 : Int
  d_10 : Int
  d_5 : Int
  d_2 : Int
  d_1 : Int
deriving DecidableEq, Repr

/-- A ProviderBalance row (transactions/models.py). -/
structure ProviderBalance where
  id : Nat
  company : Nat
  user : Nat
  provider : Provider
  starting_balance : Rat
  balance : Rat
deriving DecidableEq, Repr

/-- The persistent store touched by the transaction views. -/
structure DB where
  transactions : List Transaction
  bankDeposits : List BankDeposit
  momoDetails : List MomoDetail
  cashDetails : List CashDetail
  balances : List ProviderBalance
  nextId : Nat
deriving DecidableEq, Repr

/-- Errors a view returns, mirroring the HTTP statuses used in
transactions/views.py: 403, 404, a serializer `ValidationError` (400) and an
explicit 400 response carrying an error message. -/
inductive ApiError
  | forbidden
  | notFound
  | validationError
  | badRequestMsg (msg : String)
deriving DecidableEq, Repr

/-- views.py `_calculate_fee`: percentage of amount for deposits and
withdrawals, flat fee for transfers, 0 otherwise and 0 when the company has
no settings record.  No rounding is performed. -/
def _calculate_fee (company : Company) (transaction_type : TxType) (amount : Rat) : Rat :=
  match company.settings with
  | none => 0
  | some s =>
    match transaction_type with
    | TxType.deposit => s.deposit_fee_percentage / 100 * amount
    | TxType.withdrawal => s.withdrawal_fee_percentage / 100 * amount
    | TxType.transfer => s.transfer_fee_flat
    | _ => 0

/-- views.py `_needs_approval`: inclusive comparison against the company's
threshold; `false` when the company has no settings record. -/
def _needs_approval (company : Company) (amount : Rat) : Bool :=
  match company.settings with
  | none => false
  | some s => decide (s.require_approval_above ≤ amount)

/-- DRF `DecimalField(max_digits = m, decimal_places = d)` run-time checks:
at most `d` decimal places and at most `m - d` integer digits.  There is no
`min_value`, so zero and negative amounts pass. -/
def decimalFieldOk (maxDigits decimalPlaces : Nat) (x : Rat) : Bool :=
  decide ((x * 10 ^ decimalPlaces).den = 1) &&
  decide (|x| < (10 : Rat) ^ (maxDigits - decimalPlaces))

/-- Validated payload of `CreateBankDepositSerializer`
(transactions/serializers.py). -/
structure BankDepositData where
  customer : Option Nat
  amount : Rat
  description : String
  bank_name : String
  account_number : String
  account_name : String
  depositor_name : String
  slip_number : String
deriving DecidableEq, Repr

/-- `CreateBankDepositSerializer.is_valid`: the amount is a
`DecimalField(max_digits=14, decimal_places=2)` (no minimum), the four
required `CharField`s must be non-blank and within their max lengths,
optional fields only length-checked.  No positivity check on the amount. -/
def bankDepositDataValid (d : BankDepositData) : Bool :=
  decimalFieldOk 14 2 d.amount &&
  (d.bank_name != "" && decide (d.bank_name.length ≤ 100)) &&
  (d.account_number != "" && decide (d.account_number.length ≤ 50)) &&
  (d.account_name != "" && decide (d.account_name.length ≤ 255)) &&
  (d.depositor_name != "" && decide (d.depositor_name.length ≤ 255)) &&
  decide (d.slip_number.length ≤ 50)

/-- views.py `create_bank_deposit`.  `ref` is the reference the model's
`save` generates for the new row and `now` its creation timestamp; both are
environment inputs of the view. -/
def create_bank_deposit (db : DB) (membership : Option Membership)
    (d : BankDepositData) (ref : String) (now : Nat) :
    DB × Except ApiError Transaction :=
  match membership with
  | none => (db, Except.error ApiError.forbidden)
  | some m =>
    if bankDepositDataValid d then
      let company := m.company
      let amount := d.amount
      let fee := _calculate_fee company TxType.deposit amount
      let requires_approval := _needs_approval company amount
      let tx : Transaction := {
        id := db.nextId, reference := ref, company := company.cid,
        branch := m.branch, customer := d.customer,
        initiated_by := some m.user,
        transaction_type := TxType.deposit, channel := Channel.bank,
        status := if requires_approval then Status.pending else Status.completed,
        amount := amount, fee := fee, net_amount := amount - fee,
        description := d.description, requires_approval := requires_approval,
        approved_by := none, approved_at := none, rejection_reason := "",
        reversed_transaction := none, created_at := now }
      let detail : BankDeposit := {
        transaction := tx.id, bank_name := d.bank_name,
        account_number := d.account_number, account_name := d.account_name,
        depositor_name := d.depositor_name, slip_number := d.slip_number }
      ({ db with transactions := tx :: db.transactions,
                 bankDeposits := detail :: db.bankDeposits,
                 nextId := db.nextId + 1 }, Except.ok tx)
    else (db, Except.error ApiError.validationError)

/-- Validated payload of `CreateMoMoTransactionSerializer`. -/
structure MomoData where
  customer : Option Nat
  transaction_type : TxType
  amount : Rat
  description : String
  network : String
  service_type : String
  sender_number : String
  receiver_number : String
  momo_reference : String
deriving DecidableEq, Repr

/-- `CreateMoMoTransactionSerializer.is_valid`: transaction_type is a
`ChoiceField` over deposit/withdrawal, amount as for bank deposits, network
and service_type are `ChoiceField`s (their membership is kept abstract as
string non-blankness since the channel fields do not affect the claims),
sender_number required non-blank. -/
def momoDataValid (d : MomoData) : Bool :=
  (d.transaction_type == TxType.deposit || d.transaction_type == TxType.withdrawal) &&
  decimalFieldOk 14 2 d.amount &&
  (d.network != "") && (d.service_type != "") &&
  (d.sender_number != "" && decide (d.sender_number.length ≤ 20)) &&
  decide (d.receiver_number.length ≤ 20) &&
  decide (d.momo_reference.length ≤ 50)

/-- views.py `create_momo_transaction`, including the subscription-plan
mobile-money gate. -/
def create_momo_transaction (db : DB) (membership : Option Membership)
    (d : MomoData) (ref : String) (now : Nat) :
    DB × Except ApiError Transaction :=
  match membership with
  | none => (db, Except.error ApiError.forbidden)
  | some m =>
    if m.company.has_mobile_money = false then
      (db, Except.error ApiError.forbidden)
    else if momoDataValid d then
      let company := m.company
      let tx_type := d.transaction_type
      let amount := d.amount
      let fee := _calculate_fee company tx_type amount
      let requires_approval := _needs_approval company amount
      let tx : Transaction := {
        id := db.nextId, reference := ref, company := company.cid,
        branch := m.branch, customer := d.customer,
        initiated_by := some m.user,
        transaction_type := tx_type, channel := Channel.mobile_money,
        status := if requires_approval then Status.pending else Status.completed,
        amount := amount, fee := fee, net_amount := amount - fee,
        description := d.description, requires_approval := requires_approval,
        approved_by := none, approved_at := none, rejection_reason := "",
        reversed_transaction := none, created_at := now }
      let detail : MomoDetail := {
        transaction := tx.id, network := d.network,
        service_type := d.service_type, sender_number := d.sender_number,
        receiver_number := d.receiver_number, momo_reference := d.momo_reference }
      ({ db with transactions := tx :: db.transactions,
                 momoDetails := detail :: db.momoDetails,
                 nextId := db.nextId + 1 }, Except.ok tx)
    else (db, Except.error ApiError.validationError)

/-- Validated payload of `CreateCashTransactionSerializer`. -/
structure CashData where
  customer : Option Nat
  transaction_type : TxType
  amount : Rat
  description : String
  d_200 : Int
  d_100 : Int
  d_50 : Int
  d_20 : Int
  d_10 : Int
  d_5 : Int
  d_2 : Int
  d_1 : Int
deriving DecidableEq, Repr

/-- `CreateCashTransactionSerializer.is_valid`: choice on type, decimal
check on amount; the denomination counts are unconstrained `IntegerField`s. -/
def cashDataValid (d : CashData) : Bool :=
  (d.transaction_type == TxType.deposit || d.transaction_type == TxType.withdrawal) &&
  decimalFieldOk 14 2 d.amount

/-- views.py `create_cash_transaction`. -/
def create_cash_transaction (db : DB) (membership : Option Membership)
    (d : CashData) (ref : String) (now : Nat) :
    DB × Except ApiError Transaction :=
  match membership with
  | none => (db, Except.error ApiError.forbidden)
  | some m =>
    if cashDataValid d then
      let company := m.company
      let tx_type := d.transaction_type
      let amount := d.amount
      let fee := _calculate_fee company tx_type amount
      let requires_approval := _needs_approval company amount
      let tx : Transaction := {
        id := db.nextId, reference := ref, company := company.cid,
        branch := m.branch, customer := d.customer,
        initiated_by := some m.user,
        transaction_type := tx_type, channel := Channel.cash,
        status := if requires_approval then Status.pending else Status.completed,
        amount := amount, fee := fee, net_amount := amount - fee,
        description := d.description, requires_approval := requires_approval,
        approved_by := none, approved_at := none, rejection_reason := "",
        reversed_transaction := none, created_at := now }
      let detail : CashDetail := {
        transaction := tx.id, d_200 := d.d_200, d_100 := d.d_100,
        d_50 := d.d_50, d_20 := d.d_20, d_10 := d.d_10, d_5 := d.d_5,
        d_2 := d.d_2, d_1 := d.d_1 }
      ({ db with transactions := tx :: db.transactions,
                 cashDetails := detail :: db.cashDetails,
                 nextId := db.nextId + 1 }, Except.ok tx)
    else (db, Except.error ApiError.validationError)

/-- The choices of `ApproveTransactionSerializer.action`. -/
inductive ApproveAction
  | approve
  | reject
deriving DecidableEq, Repr

/-- views.py `approve_transaction`.  `now` models `timezone.now()`.  The
self-approval branch returns the explicit 400 response of the source, not a
403. -/
def approve_transaction (db : DB) (membership : Option Membership)
    (transaction_id : Nat) (action : ApproveAction) (rejection_reason : String)
    (now : Nat) : DB × Except ApiError Transaction :=
  match membership with
  | none => (db, Except.error ApiError.forbidden)
  | some m =>
    if m.role != Role.owner && m.role != Role.admin && m.role != Role.manager then
      (db, Except.error ApiError.forbidden)
    else
      match db.transactions.find? (fun t =>
          t.id == transaction_id && t.company == m.company.cid &&
          t.status == Status.pending) with
      | none => (db, Except.error ApiError.notFound)
      | some tx =>
        if tx.initiated_by == some m.user then
          (db, Except.error (ApiError.badRequestMsg "Cannot approve your own transaction."))
        else
          let tx' :=
            match action with
            | ApproveAction.approve =>
              { tx with status := Status.completed,
                        approved_by := some m.user, approved_at := some now }
            | ApproveAction.reject =>
              { tx with status := Status.rejected,
                        rejection_reason := rejection_reason,
                        approved_by := some m.user, approved_at := some now }
          ({ db with transactions :=
               db.transactions.map (fun t => if t.id == tx.id then tx' else t) },
           Except.ok tx')

/-- views.py `reverse_transaction`.  The `ReverseTransactionSerializer`
requires a non-blank `reason`. -/
def reverse_transaction (db : DB) (membership : Option Membership)
    (transaction_id : Nat) (reason : String) :
    DB × Except ApiError Transaction :=
  match membership with
  | none => (db, Except.error ApiError.forbidden)
  | some m =>
    if m.role != Role.owner && m.role != Role.admin then
      (db, Except.error ApiError.forbidden)
    else
      match db.transactions.find? (fun t =>
          t.id == transaction_id && t.company == m.company.cid &&
          t.status == Status.completed) with
      | none => (db, Except.error ApiError.notFound)
      | some tx =>
        if reason == "" then (db, Except.error ApiError.validationError)
        else
          let reversal : Transaction := {
            id := db.nextId, reference := "", company := tx.company,
            branch := tx.branch, customer := tx.customer,
            initiated_by := some m.user,
            transaction_type := TxType.reversal, channel := tx.channel,
            status := Status.completed,
            amount := tx.amount, fee := 0, net_amount := tx.amount,
            description := "Reversal of " ++ tx.reference ++ ": " ++ reason,
            requires_approval := false,
            approved_by := none, approved_at := none, rejection_reason := "",
            reversed_transaction := some tx.id, created_at := tx.created_at }
          ({ db with
               transactions := reversal ::
                 db.transactions.map (fun t =>
                   if t.id == tx.id then { t with status := Status.reversed } else t),
               nextId := db.nextId + 1 },
           Except.ok reversal)

/-- The repeated Django pattern `if param is not None: qs = qs.filter(...)`
of the list views: apply a filter only when the query parameter is present. -/
def optFilter {α β : Type} (o : Option α) (p : α → β → Bool) (l : List β) : List β :=
  match o with
  | none => l
  | some a => l.filter (p a)

/-- Case-insensitive substring test modelling the ORM `icontains` lookup. -/
def icontains (hay needle : String) : Bool :=
  needle == "" || (hay.toLower.splitOn needle.toLower).length != 1

/-- The query parameters accepted by the `transactions` list view. -/
structure TxFilters where
  status : Option Status
  ttype : Option TxType
  channel : Option Channel
  customer : Option Nat
  branch : Option Nat
  date_from : Option Nat
  date_to : Option Nat
  search : Option String
deriving DecidableEq, Repr

/-- views.py `transactions` (the list view): company scoping, teller
own-rows restriction, the optional filters, and the `[:200]` slice. -/
def transactions (db : DB) (membership : Option Membership) (f : TxFilters) :
    Except ApiError (List Transaction) :=
  match membership with
  | none => Except.error ApiError.forbidden
  | some m =>
    let qs := db.transactions.filter (fun t => t.company == m.company.cid)
    let qs := if m.role == Role.teller
              then qs.filter (fun t => t.initiated_by == some m.user) else qs
    let qs := optFilter f.status (fun s t => t.status == s) qs
    let qs := optFilter f.ttype (fun ty t => t.transaction_type == ty) qs
    let qs := optFilter f.channel (fun c t => t.channel == c) qs
    let qs := optFilter f.customer (fun c t => t.customer == some c) qs
    let qs := optFilter f.branch (fun b t => t.branch == some b) qs
    let qs := optFilter f.date_from (fun d t => decide (d ≤ t.created_at)) qs
    let qs := optFilter f.date_to (fun d t => decide (t.created_at ≤ d)) qs
    let qs := optFilter f.search
      (fun s t => icontains t.reference s || icontains t.description s) qs
    Except.ok (qs.take 200)

/-- views.py `provider_balances`: company scoping, the non-admin own-rows
restriction, and the optional user/provider filters. -/
def provider_balances (db : DB) (membership : Option Membership)
    (user_filter : Option Nat) (provider_filter : Option Provider) :
    Except ApiError (List ProviderBalance) :=
  match membership with
  | none => Except.error ApiError.forbidden
  | some m =>
    let qs := db.balances.filter (fun b => b.company == m.company.cid)
    let qs := if m.role != Role.owner && m.role != Role.admin
              then qs.filter (fun b => b.user == m.user) else qs
    let qs := optFilter user_filter (fun u b => b.user == u) qs
    let qs := optFilter provider_filter (fun p b => b.provider == p) qs
    Except.ok qs

/-- The choices of `AdjustProviderBalanceSerializer.operation`. -/
inductive AdjOp
  | add
  | subtract
deriving DecidableEq, Repr

/-- views.py `adjust_provider_balance`, as executed by a single request with
no interleaving (the source performs a plain `get` followed by `save` with
no locking; its behaviour under concurrency is modelled separately below). -/
def adjust_provider_balance (db : DB) (membership : Option Membership)
    (provider : Provider) (amount : Rat) (operation : AdjOp) :
    DB × Except ApiError ProviderBalance :=
  match membership with
  | none => (db, Except.error ApiError.forbidden)
  | some m =>
    if decimalFieldOk 14 2 amount then
      match db.balances.find? (fun b =>
          b.company == m.company.cid && b.user == m.user &&
          b.provider == provider) with
      | none => (db, Except.error ApiError.notFound)
      | some bal =>
        match operation with
        | AdjOp.add =>
          let bal' := { bal with balance := bal.balance + amount }
          ({ db with balances :=
               db.balances.map (fun b => if b.id == bal.id then bal' else b) },
           Except.ok bal')
        | AdjOp.subtract =>
          if bal.balance < amount then
            (db, Except.error (ApiError.badRequestMsg "Insufficient balance."))
          else
            let bal' := { bal with balance := bal.balance - amount }
            ({ db with balances :=
                 db.balances.map (fun b => if b.id == bal.id then bal' else b) },
             Except.ok bal')
    else (db, Except.error ApiError.validationError)

/-- `random.randint(100, 999)` from `Transaction._generate_reference`,
modelled as a function of the generator's raw draw `r`. -/
def randint100to999 (r : Nat) : Nat := 100 + r % 900

/-- models.py `Transaction._generate_reference`:
`TXN-<millisecond-epoch>-<randint(100,999)>`. -/
def _generate_reference (timestampMs : Nat) (r : Nat) : String :=
  "TXN-" ++ toString timestampMs ++ "-" ++ toString (randint100to999 r)

/-- The database-level failure of inserting a row that violates the unique
constraint on `Transaction.reference`. -/
inductive SaveError
  | integrityError
deriving DecidableEq, Repr

/-- models.py `Transaction.save` on an INSERT, restricted to the reference
logic: assign a generated reference only when none is set, then attempt the
insert once — a reference already present in the table violates the unique
constraint and the save raises; there is no retry loop anywhere in the
model or its callers.  Returns the reference stored on success. -/
def transactionSaveNew (existing : List String) (currentRef : String)
    (timestampMs r : Nat) : Except SaveError String :=
  let ref := if currentRef == "" then _generate_reference timestampMs r else currentRef
  if ref ∈ existing then Except.error SaveError.integrityError
  else Except.ok ref

/-- The spec's collision error for reference generation. -/
inductive SpecSaveError
  | referenceGenerationFailed
deriving DecidableEq, Repr

/-- Modelled from the spec: the bounded regenerate-and-retry insert loop the
spec prescribes for reference collisions ("regenerate and retry the
unique-constraint insert ... bounded by a small retry count, failing with a
ReferenceGenerationFailed error if exhausted").  This operation does not
exist in the source; it is stated only to compare the claim against the
code's actual single-attempt save.  `draws` is the stream of
(timestamp, random draw) pairs the retries would consume, its length the
retry bound. -/
def specSaveWithRetry (existing : List String) :
    List (Nat × Nat) → Except SpecSaveError String
  | [] => Except.error SpecSaveError.referenceGenerationFailed
  | (ts, r) :: rest =>
    let ref := _generate_reference ts r
    if ref ∈ existing then specSaveWithRetry existing rest
    else Except.ok ref

/-- Modelled from the spec: rounding to the currency's two-decimal minor
unit with round-half-up ("fee is rounded to the currency's minor-unit
precision using round-half-up").  No such rounding exists in
`_calculate_fee`; this definition is stated only to compare the claim
against the code. -/
def roundHalfUpMinorUnit (x : Rat) : Rat := (⌊x * 100 + 1 / 2⌋ : Int) / 100

/-- Modelled from the spec: `computeFee` as the spec words it, i.e. the
source's fee formula followed by minor-unit round-half-up. -/
def specComputeFee (company : Company) (transaction_type : TxType) (amount : Rat) : Rat :=
  roundHalfUpMinorUnit (_calculate_fee company transaction_type amount)

/-- One in-flight call to `adjust_provider_balance`, split at the only two
points where it touches the stored row: the `ProviderBalance.objects.get`
read and the `balance.save()` write.  The source takes no row lock, runs in
no transaction block and uses no F-expression between the two, so between a
call's read and its write other requests may freely read or write the same
row; the in-memory object carries the snapshot the call read. -/
structure InFlight where
  op : AdjOp
  amount : Rat
  phase : Option (Option Rat)
deriving DecidableEq, Repr

/-- A call that has not yet executed its read. -/
def InFlight.fresh (op : AdjOp) (amount : Rat) : InFlight :=
  { op := op, amount := amount, phase := none }

/-- Execute the next step of one in-flight call against the shared stored
balance: the first step reads the row into the call's snapshot, the second
computes from the snapshot exactly as the view body does and writes the
result back (the insufficient-balance branch writes nothing). -/
def stepInFlight (shared : Rat) (c : InFlight) : Rat × InFlight :=
  match c.phase with
  | none => (shared, { c with phase := some (some shared) })
  | some (some snap) =>
    match c.op with
    | AdjOp.add => (snap + c.amount, { c with phase := some none })
    | AdjOp.subtract =>
      if snap < c.amount then (shared, { c with phase := some none })
      else (snap - c.amount, { c with phase := some none })
  | some none => (shared, c)

/-- Two concurrent `adjust_provider_balance` calls on the same
(company, user, provider) row, driven by a schedule: `true` steps the first
call, `false` the second.  Returns the stored balance after the schedule. -/
def runSched (shared : Rat) (c1 c2 : InFlight) : List Bool → Rat
  | [] => shared
  | pick :: rest =>
    if pick then
      let s := stepInFlight shared c1
      runSched s.1 s.2 c2 rest
    else
      let s := stepInFlight shared c2
      runSched s.1 c1 s.2 rest

/-- Well-formedness of the transaction table: primary keys are distinct. -/
def DB.wfTx (db : DB) : Prop :=
  db.transactions.Pairwise (fun a b => a.id ≠ b.id)

/-- The company's stored fee configuration, when present, is non-negative.
The source nowhere enforces this (the `CompanySettings` decimal fields carry
no validators), so it is an explicit hypothesis where fee non-negativity is
claimed. -/
def feeConfigNonneg (c : Company) : Prop :=
  ∀ s, c.settings = some s →
    0 ≤ s.deposit_fee_percentage ∧ 0 ≤ s.withdrawal_fee_percentage ∧
    0 ≤ s.transfer_fee_flat

/-- The spec's approval-threshold contract for a created transaction:
inclusive boundary, and no approval when the company has no settings
record. -/
def approvalPolicyHolds (c : Company) (amount : Rat) (tx : Transaction) : Prop :=
  match c.settings with
  | some s =>
      (s.require_approval_above ≤ amount →
        tx.status = Status.pending ∧ tx.requires_approval = true) ∧
      (amount < s.require_approval_above →
        tx.status = Status.completed ∧ tx.requires_approval = false)
  | none => tx.status = Status.completed ∧ tx.requires_approval = false

/-- The post-creation contract the create views are claimed to satisfy. -/
def createdTxSpec (c : Company) (amount : Rat) (tx : Transaction) : Prop :=
  tx.amount = amount ∧
  tx.net_amount = tx.amount - tx.fee ∧
  (feeConfigNonneg c → 0 ≤ tx.fee) ∧
  approvalPolicyHolds c amount tx

/-- Fixture: a company configured like the test suite's
(1% deposit fee, 1% withdrawal fee, flat 2 transfer fee,
approval above 1000). -/
def company1 : Company :=
  { cid := 1, has_mobile_money := true,
    settings := some { require_approval_above := 1000,
                       deposit_fee_percentage := 1,
                       withdrawal_fee_percentage := 1,
                       transfer_fee_flat := 2 } }

/-- Fixture: an owner membership in `company1`. -/
def member1 : Membership :=
  { user := 1, role := Role.owner, company := company1, branch := none }

/-- Fixture: the empty store. -/
def emptyDB : DB :=
  { transactions := [], bankDeposits := [], momoDetails := [],
    cashDetails := [], balances := [], nextId := 1 }

/-- Fixture: a bank-deposit payload with a negative amount; every field
passes the serializer checks because the amount field has no minimum. -/
def negAmountData : BankDepositData :=
  { customer := none, amount := -5, description := "",
    bank_name := "Ecobank", account_number := "123",
    account_name := "John", depositor_name := "John", slip_number := "" }

/-- The transaction `create_bank_deposit` persists for `negAmountData`:
amount -5, fee 1% of -5, auto-completed because -5 is under the approval
threshold. -/
def negAmountTx : Transaction :=
  { id := 1, reference := "TXN-1-100", company := 1, branch := none,
    customer := none, initiated_by := some 1,
    transaction_type := TxType.deposit, channel := Channel.bank,
    status := Status.completed,
    amount := -5, fee := 1 / 100 * (-5 : Rat),
    net_amount := -5 - 1 / 100 * (-5 : Rat),
    description := "", requires_approval := false,
    approved_by := none, approved_at := none, rejection_reason := "",
    reversed_transaction := none, created_at := 7 }

/-- Fixture: a company whose stored deposit fee percentage is negative —
storable state, since no validator constrains the settings decimals. -/
def negFeeCompany : Company :=
  { cid := 2, has_mobile_money := true,
    settings := some { require_approval_above := 1000,
                       deposit_fee_percentage := -1,
                       withdrawal_fee_percentage := 0,
                       transfer_fee_flat := 0 } }

/-- Fixture: an owner membership in `negFeeCompany`. -/
def negFeeMember : Membership :=
  { user := 2, role := Role.owner, company := negFeeCompany, branch := none }

/-- Fixture: a perfectly valid, positive-amount bank-deposit payload. -/
def negFeeData : BankDepositData :=
  { customer := none, amount := 100, description := "",
    bank_name := "GCB", account_number := "1",
    account_name := "A", depositor_name := "A", slip_number := "" }

/-- The transaction created for `negFeeData` under `negFeeCompany`:
its fee is -1 (negative). -/
def negFeeTx : Transaction :=
  { id := 1, reference := "TXN-2-100", company := 2, branch := none,
    customer := none, initiated_by := some 2,
    transaction_type := TxType.deposit, channel := Channel.bank,
    status := Status.completed,
    amount := 100, fee := -1, net_amount := 101,
    description := "", requires_approval := false,
    approved_by := none, approved_at := none, rejection_reason := "",
    reversed_transaction := none, created_at := 3 }

/-- Fixture: an in-flight `add 10` balance adjustment. -/
def addTen : InFlight := InFlight.fresh AdjOp.add 10

/-- Fixture: an MTN float balance of 100 for user 1 in company 1. -/
def balFixture : ProviderBalance :=
  { id := 1, company := 1, user := 1, provider := Provider.mtn,
    starting_balance := 100, balance := 100 }

/-- Fixture: a store holding only `balFixture`. -/
def balDB : DB := { emptyDB with balances := [balFixture] }

/-- Fixture: a completed cash deposit of 200 in company 1, initiated by
user 9. -/
def completedTx : Transaction :=
  { id := 3, reference := "TXN-9-100", company := 1, branch := none,
    customer := some 4, initiated_by := some 9,
    transaction_type := TxType.deposit, channel := Channel.cash,
    status := Status.completed, amount := 200, fee := 2, net_amount := 198,
    description := "", requires_approval := false, approved_by := none,
    approved_at := none, rejection_reason := "", reversed_transaction := none,
    created_at := 1 }

/-- Fixture: a store holding only `completedTx`. -/
def revDB : DB := { emptyDB with transactions := [completedTx], nextId := 10 }

/-- Fixture: a completed reversal-typed transaction (itself the reversal of
transaction 3). -/
def completedReversalTx : Transaction :=
  { completedTx with
    id := 5, transaction_type := TxType.reversal,
    fee := 0, net_amount := 200, reversed_transaction := some 3 }

/-- Fixture: a store holding only `completedReversalTx`. -/
def revRevDB : DB :=
  { emptyDB with transactions := [completedReversalTx], nextId := 11 }

/-- Fixture: a pending transaction initiated by user 1 (the `member1`
actor). -/
def pendingTx : Transaction :=
  { completedTx with
    id := 6, status := Status.pending,
    initiated_by := some 1, requires_approval := true }

/-- Fixture: a store holding only `pendingTx`. -/
def pendingDB : DB := { emptyDB with transactions := [pendingTx], nextId := 12 }

/-- Fixture: the empty query-parameter set of the transaction list view. -/
def noFilters : TxFilters :=
  { status := none, ttype := none, channel := none, customer := none,
    branch := none, date_from := none, date_to := none, search := none }

/-- Fixture: the test suite's 500.00 bank-deposit payload. -/
def depositData500 : BankDepositData :=
  { customer := some 4, amount := 500, description := "",
    bank_name := "Ecobank", account_number := "1234567890",
    account_name := "John Doe", depositor_name := "John Doe",
    slip_number := "" }

/-- The transaction created for `depositData500` under `company1`:
fee 1% of 500 = 5, net 495, auto-completed because 500 < 1000. -/
def tx500 : Transaction :=
  { id := 1, reference := "TXN-1-500", company := 1, branch := none,
    customer := some 4, initiated_by := some 1,
    transaction_type := TxType.deposit, channel := Channel.bank,
    status := Status.completed, amount := 500, fee := 5, net_amount := 495,
    description := "", requires_approval := false, approved_by := none,
    approved_at := none, rejection_reason := "", reversed_transaction := none,
    created_at := 2 }

/-- C6: the claim says an `amount <= 0` create is rejected with a
validation error and persists nothing.  The code has no such check: this
bank-deposit create with amount -5 passes the serializer, persists a
transaction (and its detail row) with amount -5, and — because -5 is below
the approval threshold — records it as `completed`, bypassing approval. -/
theorem create_accepts_nonpositive_amount :
    create_bank_deposit emptyDB (some member1) negAmountData "TXN-1-100" 7 =
      ({ emptyDB with
           transactions := [negAmountTx],
           bankDeposits := [{ transaction := 1, bank_name := "Ecobank",
                              account_number := "123", account_name := "John",
                              depositor_name := "John", slip_number := "" }],
           nextId := 2 }, Except.ok negAmountTx) ∧
    negAmountTx.amount < 0 ∧ negAmountTx.status = Status.completed ∧
    negAmountTx.requires_approval = false := by
  refine ⟨?_, by norm_num [negAmountTx], by simp [negAmountTx], by simp [negAmountTx]⟩
  norm_num +decide [create_bank_deposit, bankDepositDataValid, decimalFieldOk,
    _needs_approval, _calculate_fee, member1, company1, negAmountData, emptyDB,
    negAmountTx]

/-- C8: the source's read-then-write in `adjust_provider_balance` takes no
lock, so the interleaving read-read-write-write of two concurrent `add 10`
calls on the same row is admissible; it loses one update (final 110 from
100), while serial execution gives 120 = 100 + 2 * 10 as the claim
requires. -/
theorem adjust_lost_update_interleaving :
    runSched 100 addTen addTen [true, false, true, false] = 110 ∧
    runSched 100 addTen addTen [true, true, false, false] = 120 ∧
    (110 : Rat) ≠ 100 + 2 * 10 := by
  refine ⟨?_, ?_, by norm_num⟩ <;>
    simp only [runSched, stepInFlight, addTen, InFlight.fresh] <;> norm_num

/-- C1 counterexample: a valid create with positive amount 100 under a
company whose stored deposit fee percentage is -1 produces a transaction
with fee -1 < 0, refuting the unconditional `fee >= 0` part of the claim. -/
theorem create_fee_negative_counterexample :
    0 < negFeeData.amount ∧
    bankDepositDataValid negFeeData = true ∧
    (create_bank_deposit emptyDB (some negFeeMember) negFeeData "TXN-2-100" 3).2 =
      Except.ok negFeeTx ∧
    negFeeTx.fee < 0 := by
  refine ⟨by norm_num [negFeeData], ?_, ?_, by norm_num [negFeeTx]⟩
  · norm_num +decide [bankDepositDataValid, decimalFieldOk, negFeeData]
  · norm_num +decide [create_bank_deposit, bankDepositDataValid, decimalFieldOk,
      _needs_approval, _calculate_fee, negFeeMember, negFeeCompany, negFeeData,
      emptyDB, negFeeTx]

/-- C4 counterexample: with a 1% deposit fee, the fee on amount 0.50 is
computed as exactly 0.005; round-half-up to the two-decimal minor unit
would give 0.01, so the fee is not rounded as claimed. -/
theorem fee_not_rounded_counterexample :
    _calculate_fee company1 TxType.deposit (1 / 2) = 1 / 200 ∧
    specComputeFee company1 TxType.deposit (1 / 2) = 1 / 100 ∧
    ((1 : Rat) / 200) ≠ 1 / 100 := by
  have h : _calculate_fee company1 TxType.deposit (1 / 2) = 1 / 200 := by
    simp only [_calculate_fee, company1]
    norm_num
  refine ⟨h, ?_, by norm_num⟩
  simp only [specComputeFee, h, roundHalfUpMinorUnit]
  norm_num

/-- C9 counterexample: with "TXN-5-100" already taken and the generator
drawing that same reference, the code's single-attempt save raises the
uniqueness integrity error — it does not regenerate and retry as the claim
states, while the spec's retry loop would succeed with the next draw. -/
theorem reference_collision_crashes_counterexample :
    transactionSaveNew [_generate_reference 5 0] "" 5 0 =
      Except.error SaveError.integrityError ∧
    specSaveWithRetry [_generate_reference 5 0] [(5, 0), (5, 1)] =
      Except.ok "TXN-5-101" := by
  exact ⟨rfl, rfl⟩

/-- Anything surviving an optional filter was in the unfiltered list. -/
theorem mem_of_optFilter {α β : Type} {o : Option α} {p : α → β → Bool}
    {l : List β} {x : β} (h : x ∈ optFilter o p l) : x ∈ l := by
  cases o with
  | none => exact h
  | some a => exact (List.mem_filter.mp h).1

/-- Anything surviving a conditionally applied filter was in the unfiltered
list. -/
theorem mem_of_iteFilter {β : Type} {c : Bool} {p : β → Bool} {l : List β}
    {x : β} (h : x ∈ (if c = true then l.filter p else l)) : x ∈ l := by
  cases c with
  | false => simpa using h
  | true => exact (List.mem_filter.mp (by simpa using h)).1

/-- In a table with pairwise-distinct primary keys, two rows with the same
key are the same row. -/
theorem tx_id_inj {l : List Transaction}
    (h : l.Pairwise (fun a b => a.id ≠ b.id))
    {y z : Transaction} (hy : y ∈ l) (hz : z ∈ l) (hid : y.id = z.id) :
    y = z := by
  by_contra hne
  exact (List.Pairwise.forall (fun a b hab => Ne.symm hab) h hy hz hne) hid

/-- `find?` on a table with pairwise-distinct keys returns the member row
when every row satisfying the predicate shares its key. -/
theorem find_eq_some_of_unique {p : Transaction → Bool} {l : List Transaction}
    {tx : Transaction} (hpw : l.Pairwise (fun a b => a.id ≠ b.id))
    (hmem : tx ∈ l) (hsat : p tx = true)
    (hall : ∀ y ∈ l, p y = true → y.id = tx.id) :
    l.find? p = some tx := by
  induction l with
  | nil => cases hmem
  | cons hd tl ih =>
    rw [List.pairwise_cons] at hpw
    rcases hpw with ⟨hhd, htl⟩
    rcases List.mem_cons.mp hmem with heq | hmemtl
    · subst heq
      exact List.find?_cons_of_pos _ hsat
    · by_cases hph : p hd = true
      · exact absurd (hall hd (List.mem_cons_self _ _) hph) (hhd tx hmemtl)
      · rw [List.find?_cons_of_neg _ hph]
        exact ih htl hmemtl fun y hy hp => hall y (List.mem_cons_of_mem _ hy) hp

/-- C3: on the balance row of the caller's (company, user, provider)
triple, `subtract` with `balance < amount` returns the insufficient-balance
error and leaves the store untouched; otherwise `subtract` decreases the
stored balance by exactly the amount and the result is never negative
(subtracting the exact balance leaves zero); `add` stores
`balance + amount` unconditionally. -/
theorem adjust_balance_guard (db : DB) (m : Membership) (p : Provider)
    (amount : Rat) (bal : ProviderBalance)
    (hfind : db.balances.find? (fun b =>
        b.company == m.company.cid && b.user == m.user && b.provider == p) =
      some bal)
    (hamt : decimalFieldOk 14 2 amount = true) :
    (bal.balance < amount →
      adjust_provider_balance db (some m) p amount AdjOp.subtract =
        (db, Except.error (ApiError.badRequestMsg "Insufficient balance."))) ∧
    (amount ≤ bal.balance →
      adjust_provider_balance db (some m) p amount AdjOp.subtract =
        ({ db with balances := db.balances.map (fun b =>
             if b.id == bal.id
             then { bal with balance := bal.balance - amount } else b) },
         Except.ok { bal with balance := bal.balance - amount }) ∧
      0 ≤ bal.balance - amount) ∧
    adjust_provider_balance db (some m) p amount AdjOp.add =
      ({ db with balances := db.balances.map (fun b =>
           if b.id == bal.id
           then { bal with balance := bal.balance + amount } else b) },
       Except.ok { bal with balance := bal.balance + amount }) := by
  refine ⟨fun hlt => ?_, fun hge => ⟨?_, sub_nonneg.mpr hge⟩, ?_⟩
  · simp only [adjust_provider_balance, hamt, if_true, hfind]
    rw [if_pos hlt]
  · simp only [adjust_provider_balance, hamt, if_true, hfind]
    rw [if_neg (not_lt.mpr hge)]
  · simp only [adjust_provider_balance, hamt, if_true, hfind]

/-- Witness for `adjust_balance_guard` at a concrete store: subtracting 150
from a balance of 100 is rejected without change, subtracting the full 100
leaves exactly 0, and adding 40 stores 140. -/
theorem adjust_balance_guard_witness :
    adjust_provider_balance balDB (some member1) Provider.mtn 150 AdjOp.subtract =
      (balDB, Except.error (ApiError.badRequestMsg "Insufficient balance.")) ∧
    adjust_provider_balance balDB (some member1) Provider.mtn 100 AdjOp.subtract =
      ({ balDB with balances := balDB.balances.map (fun b =>
           if b.id == balFixture.id
           then { balFixture with balance := balFixture.balance - 100 } else b) },
       Except.ok { balFixture with balance := balFixture.balance - 100 }) ∧
    (0 : Rat) ≤ balFixture.balance - 100 ∧
    adjust_provider_balance balDB (some member1) Provider.mtn 40 AdjOp.add =
      ({ balDB with balances := balDB.balances.map (fun b =>
           if b.id == balFixture.id
           then { balFixture with balance := balFixture.balance + 40 } else b) },
       Except.ok { balFixture with balance := balFixture.balance + 40 }) := by
  have hfind : balDB.balances.find? (fun b =>
      b.company == member1.company.cid && b.user == member1.user &&
      b.provider == Provider.mtn) = some balFixture := rfl
  have h150 := adjust_balance_guard balDB member1 Provider.mtn 150 balFixture
    hfind (by norm_num +decide [decimalFieldOk])
  have h100 := adjust_balance_guard balDB member1 Provider.mtn 100 balFixture
    hfind (by norm_num +decide [decimalFieldOk])
  have h40 := adjust_balance_guard balDB member1 Provider.mtn 40 balFixture
    hfind (by norm_num +decide [decimalFieldOk])
  refine ⟨h150.1 (by norm_num [balFixture]), ?_, ?_, h40.2.2⟩
  · exact (h100.2.1 (by norm_num [balFixture])).1
  · exact (h100.2.1 (by norm_num [balFixture])).2

/-- Core success lemma for `reverse_transaction`: an admin-or-above actor
reversing a completed transaction of their company gets exactly one new
completed reversal record with the original's channel, customer, branch and
amount, zero fee, net equal to the amount, a back-pointer to the original —
and the original's status flipped to reversed. -/
theorem reverse_transaction_ok (db : DB) (m : Membership) (reason : String)
    (tx : Transaction) (hwf : db.wfTx)
    (hrole : m.role = Role.owner ∨ m.role = Role.admin)
    (hreason : reason ≠ "")
    (hmem : tx ∈ db.transactions)
    (hcomp : tx.company = m.company.cid)
    (hstat : tx.status = Status.completed) :
    ∃ r, reverse_transaction db (some m) tx.id reason =
        ({ db with
             transactions := r :: db.transactions.map (fun t =>
               if t.id == tx.id then { t with status := Status.reversed } else t),
             nextId := db.nextId + 1 },
         Except.ok r) ∧
      r.transaction_type = TxType.reversal ∧ r.channel = tx.channel ∧
      r.customer = tx.customer ∧ r.branch = tx.branch ∧
      r.amount = tx.amount ∧ r.fee = 0 ∧ r.net_amount = tx.amount ∧
      r.status = Status.completed ∧ r.requires_approval = false ∧
      r.reversed_transaction = some tx.id := by
  have hfind : db.transactions.find? (fun t =>
      t.id == tx.id && t.company == m.company.cid &&
      t.status == Status.completed) = some tx := by
    refine find_eq_some_of_unique hwf hmem ?_ ?_
    · simp [hcomp, hstat]
    · intro y _ hp
      simp only [Bool.and_eq_true, beq_iff_eq] at hp
      exact hp.1.1
  have hrolec : (m.role != Role.owner && m.role != Role.admin) = false := by
    rcases hrole with h | h <;> simp [h]
  refine ⟨{ id := db.nextId, reference := "", company := tx.company,
            branch := tx.branch, customer := tx.customer,
            initiated_by := some m.user, transaction_type := TxType.reversal,
            channel := tx.channel, status := Status.completed,
            amount := tx.amount, fee := 0, net_amount := tx.amount,
            description := "Reversal of " ++ tx.reference ++ ": " ++ reason,
            requires_approval := false, approved_by := none,
            approved_at := none, rejection_reason := "",
            reversed_transaction := some tx.id, created_at := tx.created_at },
         ?_, rfl, rfl, rfl, rfl, rfl, rfl, rfl, rfl, rfl, rfl⟩
  simp only [reverse_transaction, hrolec, Bool.false_eq_true, if_false, hfind]
  rw [if_neg (by simpa using hreason)]

/-- C2: reversing a completed transaction in the actor's company (actor
admin-or-above) creates exactly one new completed reversal-typed
transaction with the original's channel/customer/branch, amount equal to
the original's, fee 0, net_amount equal to the original's amount, and
`reversed_transaction` pointing at the original, while the original's
status flips to reversed; for a transaction that is not completed or not in
the actor's company the call returns NotFound and leaves the store
unchanged. -/
theorem reverse_completed_and_reject_noncompleted (db : DB) (m : Membership)
    (reason : String) (tx : Transaction) (hwf : db.wfTx)
    (hrole : m.role = Role.owner ∨ m.role = Role.admin)
    (hreason : reason ≠ "") (hmem : tx ∈ db.transactions) :
    (tx.company = m.company.cid → tx.status = Status.completed →
      ∃ r, reverse_transaction db (some m) tx.id reason =
          ({ db with
               transactions := r :: db.transactions.map (fun t =>
                 if t.id == tx.id then { t with status := Status.reversed } else t),
               nextId := db.nextId + 1 },
           Except.ok r) ∧
        r.transaction_type = TxType.reversal ∧ r.channel = tx.channel ∧
        r.customer = tx.customer ∧ r.branch = tx.branch ∧
        r.amount = tx.amount ∧ r.fee = 0 ∧ r.net_amount = tx.amount ∧
        r.status = Status.completed ∧ r.reversed_transaction = some tx.id) ∧
    (tx.status ≠ Status.completed ∨ tx.company ≠ m.company.cid →
      reverse_transaction db (some m) tx.id reason =
        (db, Except.error ApiError.notFound)) := by
  constructor
  · intro hcomp hstat
    obtain ⟨r, hr, h1, h2, h3, h4, h5, h6, h7, h8, _, h9⟩ :=
      reverse_transaction_ok db m reason tx hwf hrole hreason hmem hcomp hstat
    exact ⟨r, hr, h1, h2, h3, h4, h5, h6, h7, h8, h9⟩
  · intro hfail
    have hfind : db.transactions.find? (fun t =>
        t.id == tx.id && t.company == m.company.cid &&
        t.status == Status.completed) = none := by
      rw [List.find?_eq_none]
      intro y hy hp
      simp only [Bool.and_eq_true, beq_iff_eq] at hp
      have hid : y.id = tx.id := hp.1.1
      have : y = tx := tx_id_inj hwf hy hmem hid
      subst this
      rcases hfail with h | h
      · exact h hp.2
      · exact h hp.1.2
    have hrolec : (m.role != Role.owner && m.role != Role.admin) = false := by
      rcases hrole with h | h <;> simp [h]
    simp only [reverse_transaction, hrolec, Bool.false_eq_true, if_false, hfind]

/-- Witness for `reverse_completed_and_reject_noncompleted`: reversing the
completed transaction 3 in the one-row store succeeds with a reversal
carrying fee 0 and amount 200, and the same call on a pending transaction
returns NotFound unchanged. -/
theorem reverse_completed_witness :
    (∃ r, reverse_transaction revDB (some member1) completedTx.id "Customer request" =
        ({ revDB with
             transactions := r :: revDB.transactions.map (fun t =>
               if t.id == completedTx.id
               then { t with status := Status.reversed } else t),
             nextId := revDB.nextId + 1 },
         Except.ok r) ∧
      r.transaction_type = TxType.reversal ∧ r.channel = completedTx.channel ∧
      r.customer = completedTx.customer ∧ r.branch = completedTx.branch ∧
      r.amount = completedTx.amount ∧ r.fee = 0 ∧
      r.net_amount = completedTx.amount ∧ r.status = Status.completed ∧
      r.reversed_transaction = some completedTx.id) ∧
    reverse_transaction pendingDB (some member1) pendingTx.id "Customer request" =
      (pendingDB, Except.error ApiError.notFound) := by
  constructor
  · exact (reverse_completed_and_reject_noncompleted revDB member1
      "Customer request" completedTx
      (by simp [DB.wfTx, revDB, emptyDB])
      (Or.inl rfl) (by decide)
      (by simp [revDB, emptyDB])).1 rfl rfl
  · exact (reverse_completed_and_reject_noncompleted pendingDB member1
      "Customer request" pendingTx
      (by simp [DB.wfTx, pendingDB, emptyDB])
      (Or.inl rfl) (by decide)
      (by simp [pendingDB, emptyDB])).2
      (Or.inl (by simp [pendingTx, completedTx]))

/-- C10: the completed-status precondition of `reverse_transaction` does
not exclude reversal-typed transactions: an admin-or-above actor reversing
a completed transaction that is itself of type reversal succeeds, creating
a new completed reversal whose `reversed_transaction` points at the first
reversal, and flipping the first reversal's status to reversed. -/
theorem reverse_of_reversal_permitted (db : DB) (m : Membership)
    (reason : String) (tx : Transaction) (hwf : db.wfTx)
    (hrole : m.role = Role.owner ∨ m.role = Role.admin)
    (hreason : reason ≠ "") (hmem : tx ∈ db.transactions)
    (htype : tx.transaction_type = TxType.reversal)
    (hcomp : tx.company = m.company.cid)
    (hstat : tx.status = Status.completed) :
    ∃ r, reverse_transaction db (some m) tx.id reason =
        ({ db with
             transactions := r :: db.transactions.map (fun t =>
               if t.id == tx.id then { t with status := Status.reversed } else t),
             nextId := db.nextId + 1 },
         Except.ok r) ∧
      r.transaction_type = TxType.reversal ∧ r.status = Status.completed ∧
      r.reversed_transaction = some tx.id := by
  obtain ⟨r, hr, h1, _, _, _, _, _, _, h8, _, h9⟩ :=
    reverse_transaction_ok db m reason tx hwf hrole hreason hmem hcomp hstat
  exact ⟨r, hr, h1, h8, h9⟩

/-- Witness for `reverse_of_reversal_permitted`: reversing the completed
reversal transaction 5 succeeds. -/
theorem reverse_of_reversal_witness :
    ∃ r, reverse_transaction revRevDB (some member1) completedReversalTx.id "undo" =
        ({ revRevDB with
             transactions := r :: revRevDB.transactions.map (fun t =>
               if t.id == completedReversalTx.id
               then { t with status := Status.reversed } else t),
             nextId := revRevDB.nextId + 1 },
         Except.ok r) ∧
      r.transaction_type = TxType.reversal ∧ r.status = Status.completed ∧
      r.reversed_transaction = some completedReversalTx.id := by
  exact reverse_of_reversal_permitted revRevDB member1 "undo" completedReversalTx
    (by simp [DB.wfTx, revRevDB, emptyDB])
    (Or.inl rfl) (by decide)
    (by simp [revRevDB, emptyDB])
    (by simp [completedReversalTx, completedTx]) rfl
    (by simp [completedReversalTx, completedTx])

/-- C5 (amended): a pending transaction of the actor's company, with the
actor manager-or-above and also the transaction's initiator, makes
`approve_transaction` fail with the explicit 400 bad-request response
"Cannot approve your own transaction." — not a 403 Forbidden — and the
store (status, approver, approved_at included) is returned unchanged. -/
theorem self_approval_rejected (db : DB) (m : Membership) (action : ApproveAction)
    (reason : String) (now : Nat) (tx : Transaction) (hwf : db.wfTx)
    (hrole : m.role = Role.owner ∨ m.role = Role.admin ∨ m.role = Role.manager)
    (hmem : tx ∈ db.transactions)
    (hcomp : tx.company = m.company.cid)
    (hstat : tx.status = Status.pending)
    (hinit : tx.initiated_by = some m.user) :
    approve_transaction db (some m) tx.id action reason now =
      (db, Except.error (ApiError.badRequestMsg "Cannot approve your own transaction.")) := by
  have hfind : db.transactions.find? (fun t =>
      t.id == tx.id && t.company == m.company.cid &&
      t.status == Status.pending) = some tx := by
    refine find_eq_some_of_unique hwf hmem ?_ ?_
    · simp [hcomp, hstat]
    · intro y _ hp
      simp only [Bool.and_eq_true, beq_iff_eq] at hp
      exact hp.1.1
  have hrolec : (m.role != Role.owner && m.role != Role.admin &&
      m.role != Role.manager) = false := by
    rcases hrole with h | h | h <;> simp [h]
  simp only [approve_transaction, hrolec, Bool.false_eq_true, if_false, hfind]
  rw [if_pos (by simp [hinit])]

/-- C5 counterexample to the claim as stated: at a concrete pending
transaction whose initiator is the calling owner, the approval call returns
the 400 bad-request response, which is not the Forbidden (403) error the
claim names. -/
theorem self_approval_not_forbidden_counterexample :
    approve_transaction pendingDB (some member1) 6 ApproveAction.approve "" 9 =
      (pendingDB, Except.error (ApiError.badRequestMsg "Cannot approve your own transaction.")) ∧
    Except.error (α := Transaction) (ApiError.badRequestMsg "Cannot approve your own transaction.") ≠
      Except.error (α := Transaction) ApiError.forbidden := by
  refine ⟨rfl, by simp⟩

/-- Witness for `self_approval_rejected` at the concrete one-row store. -/
theorem self_approval_rejected_witness :
    approve_transaction pendingDB (some member1) pendingTx.id
        ApproveAction.approve "" 9 =
      (pendingDB, Except.error (ApiError.badRequestMsg "Cannot approve your own transaction.")) := by
  exact self_approval_rejected pendingDB member1 ApproveAction.approve "" 9
    pendingTx
    (by simp [DB.wfTx, pendingDB, emptyDB])
    (Or.inl rfl)
    (by simp [pendingDB, emptyDB])
    rfl
    (by simp [pendingTx, completedTx])
    rfl

/-- C7: whatever filter parameters are supplied, every transaction returned
by the list view and every balance returned by the provider-balance view
belongs to the caller's company — the pipelines only ever narrow the
initial company-scoped query. -/
theorem tenant_isolation (db : DB) (m : Membership) (f : TxFilters)
    (uf : Option Nat) (pf : Option Provider) (l : List Transaction)
    (lb : List ProviderBalance) (tx : Transaction) (b : ProviderBalance) :
    (transactions db (some m) f = Except.ok l → tx ∈ l →
      tx.company = m.company.cid) ∧
    (provider_balances db (some m) uf pf = Except.ok lb → b ∈ lb →
      b.company = m.company.cid) := by
  constructor
  · intro h htx
    simp only [transactions, Except.ok.injEq] at h
    subst h
    have h1 := List.mem_of_mem_take htx
    have h2 := mem_of_optFilter h1
    have h3 := mem_of_optFilter h2
    have h4 := mem_of_optFilter h3
    have h5 := mem_of_optFilter h4
    have h6 := mem_of_optFilter h5
    have h7 := mem_of_optFilter h6
    have h8 := mem_of_optFilter h7
    have h9 := mem_of_optFilter h8
    have h10 := mem_of_iteFilter h9
    have h11 := List.mem_filter.mp h10
    simpa using h11.2
  · intro h hb
    simp only [provider_balances, Except.ok.injEq] at h
    subst h
    have h1 := mem_of_optFilter hb
    have h2 := mem_of_optFilter h1
    have h3 := mem_of_iteFilter h2
    have h4 := List.mem_filter.mp h3
    simpa using h4.2

/-- Witness for `tenant_isolation` on concrete one-row stores, with no
filter parameters supplied. -/
theorem tenant_isolation_witness :
    completedTx.company = member1.company.cid ∧
    balFixture.company = member1.company.cid := by
  constructor
  · exact (tenant_isolation revDB member1 noFilters none none
      [completedTx] [balFixture] completedTx balFixture).1 rfl (by simp)
  · exact (tenant_isolation balDB member1 noFilters none none
      [completedTx] [balFixture] completedTx balFixture).2 rfl (by simp)

/-- With a non-negative fee configuration and a non-negative amount, the
computed fee is non-negative for every transaction type. -/
theorem calculate_fee_nonneg (c : Company) (t : TxType) (a : Rat)
    (hc : feeConfigNonneg c) (ha : 0 ≤ a) : 0 ≤ _calculate_fee c t a := by
  rcases hs : c.settings with _ | s
  · simp [_calculate_fee, hs]
  · obtain ⟨h1, h2, h3⟩ := hc s hs
    cases t <;> simp [_calculate_fee, hs]
    · exact mul_nonneg (div_nonneg h1 (by norm_num)) ha
    · exact mul_nonneg (div_nonneg h2 (by norm_num)) ha
    · exact h3

/-- A record whose status and requires_approval are given by
`_needs_approval` satisfies the spec's inclusive-threshold approval
contract. -/
theorem approval_fields (c : Company) (a : Rat) (tx : Transaction)
    (hst : tx.status = if _needs_approval c a then Status.pending else Status.completed)
    (hra : tx.requires_approval = _needs_approval c a) :
    approvalPolicyHolds c a tx := by
  simp only [approvalPolicyHolds]
  rcases hs : c.settings with _ | s
  · simp only [_needs_approval, hs] at hst hra
    simp only [Bool.false_eq_true, if_false] at hst
    exact ⟨hst, hra⟩
  · constructor
    · intro hle
      have hn : _needs_approval c a = true := by
        simp [_needs_approval, hs, hle]
      rw [hn] at hst hra
      simp only [if_true] at hst
      exact ⟨hst, hra⟩
    · intro hlt
      have hn : _needs_approval c a = false := by
        simp only [_needs_approval, hs, decide_eq_false_iff_not]
        exact not_le.mpr hlt
      rw [hn] at hst hra
      simp only [Bool.false_eq_true, if_false] at hst
      exact ⟨hst, hra⟩

/-- C1 (amended): for every successful create on any of the three channels
with a positive validated amount, the stored transaction carries the given
amount, satisfies `net_amount = amount - fee`, satisfies the inclusive
approval-threshold contract (pending plus requires_approval above-or-at the
threshold, completed without approval below it, no approval without a
settings record) — and its fee is non-negative provided the company's
stored fee configuration is non-negative (the code does not validate the
configuration, so unconditional fee non-negativity fails; see the
counterexample). -/
theorem create_invariants :
    (∀ (db : DB) (m : Membership) (d : BankDepositData) (ref : String)
        (now : Nat) (db2 : DB) (tx : Transaction), 0 < d.amount →
      create_bank_deposit db (some m) d ref now = (db2, Except.ok tx) →
      createdTxSpec m.company d.amount tx) ∧
    (∀ (db : DB) (m : Membership) (d : MomoData) (ref : String)
        (now : Nat) (db2 : DB) (tx : Transaction), 0 < d.amount →
      create_momo_transaction db (some m) d ref now = (db2, Except.ok tx) →
      createdTxSpec m.company d.amount tx) ∧
    (∀ (db : DB) (m : Membership) (d : CashData) (ref : String)
        (now : Nat) (db2 : DB) (tx : Transaction), 0 < d.amount →
      create_cash_transaction db (some m) d ref now = (db2, Except.ok tx) →
      createdTxSpec m.company d.amount tx) := by
  refine ⟨?_, ?_, ?_⟩
  · intro db m d ref now db2 tx hpos h
    simp only [create_bank_deposit] at h
    by_cases hv : bankDepositDataValid d = true
    · rw [if_pos hv] at h
      simp only [Prod.mk.injEq, Except.ok.injEq] at h
      obtain ⟨-, htx⟩ := h
      subst htx
      exact ⟨rfl, rfl,
        fun hc => calculate_fee_nonneg _ _ _ hc hpos.le,
        approval_fields _ _ _ rfl rfl⟩
    · rw [if_neg hv] at h
      simp at h
  · intro db m d ref now db2 tx hpos h
    simp only [create_momo_transaction] at h
    by_cases hplan : m.company.has_mobile_money = false
    · rw [if_pos hplan] at h
      simp at h
    · rw [if_neg hplan] at h
      by_cases hv : momoDataValid d = true
      · rw [if_pos hv] at h
        simp only [Prod.mk.injEq, Except.ok.injEq] at h
        obtain ⟨-, htx⟩ := h
        subst htx
        exact ⟨rfl, rfl,
          fun hc => calculate_fee_nonneg _ _ _ hc hpos.le,
          approval_fields _ _ _ rfl rfl⟩
      · rw [if_neg hv] at h
        simp at h
  · intro db m d ref now db2 tx hpos h
    simp only [create_cash_transaction] at h
    by_cases hv : cashDataValid d = true
    · rw [if_pos hv] at h
      simp only [Prod.mk.injEq, Except.ok.injEq] at h
      obtain ⟨-, htx⟩ := h
      subst htx
      exact ⟨rfl, rfl,
        fun hc => calculate_fee_nonneg _ _ _ hc hpos.le,
        approval_fields _ _ _ rfl rfl⟩
    · rw [if_neg hv] at h
      simp at h

/-- Witness for `create_invariants`: the spec's own example — a 500.00 bank
deposit under a 1%-fee, 1000-threshold company — yields fee 5, net 495,
completed with no approval, satisfying `createdTxSpec`. -/
theorem create_invariants_witness :
    createdTxSpec member1.company depositData500.amount tx500 := by
  have h : create_bank_deposit emptyDB (some member1) depositData500 "TXN-1-500" 2 =
      ({ emptyDB with
           transactions := [tx500],
           bankDeposits := [{ transaction := 1, bank_name := "Ecobank",
                              account_number := "1234567890",
                              account_name := "John Doe",
                              depositor_name := "John Doe", slip_number := "" }],
           nextId := 2 }, Except.ok tx500) := by
    norm_num +decide [create_bank_deposit, bankDepositDataValid, decimalFieldOk,
      _needs_approval, _calculate_fee, member1, company1, depositData500,
      emptyDB, tx500]
  exact create_invariants.1 emptyDB member1 depositData500 "TXN-1-500" 2 _ tx500
    (by norm_num [depositData500]) h

/-- C4 (amended): the fee function computes exactly
depositPercent/100 * amount for deposits, withdrawalPercent/100 * amount
for withdrawals, the flat transfer fee independently of the amount, and 0
for every other type or when the company has no fee configuration — in
exact fixed-point (rational) arithmetic, with no rounding to the minor
unit (see the counterexample for the dropped round-half-up clause). -/
theorem fee_formula (c : Company) (s : CompanySettings) (a b : Rat) :
    (c.settings = some s →
      _calculate_fee c TxType.deposit a = s.deposit_fee_percentage / 100 * a ∧
      _calculate_fee c TxType.withdrawal a = s.withdrawal_fee_percentage / 100 * a ∧
      _calculate_fee c TxType.transfer a = s.transfer_fee_flat ∧
      _calculate_fee c TxType.fee a = 0 ∧
      _calculate_fee c TxType.commission a = 0 ∧
      _calculate_fee c TxType.reversal a = 0) ∧
    (c.settings = none → ∀ t, _calculate_fee c t a = 0) ∧
    _calculate_fee c TxType.transfer a = _calculate_fee c TxType.transfer b := by
  refine ⟨fun hs => ?_, fun hs t => ?_, ?_⟩
  · simp [_calculate_fee, hs]
  · cases t <;> simp [_calculate_fee, hs]
  · rcases hs : c.settings with _ | s2 <;> simp [_calculate_fee, hs]

/-- Witness for `fee_formula` at `company1`: the flat transfer fee is 2
regardless of amount, and a reversal carries fee 0. -/
theorem fee_formula_witness :
    _calculate_fee company1 TxType.transfer 7 = 2 ∧
    _calculate_fee company1 TxType.reversal 7 = 0 ∧
    _calculate_fee company1 TxType.transfer 7 =
      _calculate_fee company1 TxType.transfer 123456 := by
  have h := fee_formula company1
    { require_approval_above := 1000, deposit_fee_percentage := 1,
      withdrawal_fee_percentage := 1, transfer_fee_flat := 2 } 7 123456
  exact ⟨(h.1 rfl).2.2.1, (h.1 rfl).2.2.2.2.2, h.2.2⟩

/-- C9 (amended): every generated reference has the exact format
TXN-<millisecond-epoch>-<n> with n a 3-digit number in [100, 999]; a
reference already set is never regenerated by `save`; but on a uniqueness
collision there is no retry — the single insert attempt fails with the
integrity error (the spec's bounded ReferenceGenerationFailed retry loop
does not exist in the code; see the counterexample). -/
theorem reference_format_and_no_retry (existing : List String) (cur : String)
    (ts r : Nat) :
    (∃ n, 100 ≤ n ∧ n ≤ 999 ∧
      _generate_reference ts r = "TXN-" ++ toString ts ++ "-" ++ toString n) ∧
    (cur ≠ "" → ∀ x, transactionSaveNew existing cur ts r = Except.ok x → x = cur) ∧
    (_generate_reference ts r ∈ existing →
      transactionSaveNew existing "" ts r = Except.error SaveError.integrityError) ∧
    (_generate_reference ts r ∉ existing →
      transactionSaveNew existing "" ts r = Except.ok (_generate_reference ts r)) := by
  have hempty : (("" : String) == "") = true := by decide
  refine ⟨⟨randint100to999 r, Nat.le_add_right 100 (r % 900), ?_, rfl⟩, ?_, ?_, ?_⟩
  · have := Nat.mod_lt r (y := 900) (by norm_num)
    unfold randint100to999
    omega
  · intro hcur x hx
    have hbeq : (cur == "") = false := beq_eq_false_iff_ne.mpr hcur
    simp only [transactionSaveNew, hbeq, Bool.false_eq_true, if_false] at hx
    by_cases hmem : cur ∈ existing
    · rw [if_pos hmem] at hx
      cases hx
    · rw [if_neg hmem] at hx
      exact (Except.ok.inj hx).symm
  · intro hmem
    simp only [transactionSaveNew, hempty, if_true]
    rw [if_pos hmem]
  · intro hmem
    simp only [transactionSaveNew, hempty, if_true]
    rw [if_neg hmem]

/-- Witness for `reference_format_and_no_retry` at concrete inputs: a fresh
reference is stored as generated, a preset reference survives the save
untouched, and the generated reference is well-formatted. -/
theorem reference_format_witness :
    transactionSaveNew ["X"] "" 1 1 = Except.ok (_generate_reference 1 1) ∧
    ("KEEP" : String) = "KEEP" ∧
    (∃ n, 100 ≤ n ∧ n ≤ 999 ∧
      _generate_reference 1 1 = "TXN-" ++ toString (1 : Nat) ++ "-" ++ toString n) := by
  have h := reference_format_and_no_retry ["X"] "KEEP" 1 1
  exact ⟨h.2.2.2 (by decide), h.2.1 (by decide) "KEEP" rfl, h.1⟩

end MerchantPlus
